import Mathlib

/-!
Shallow embedding of the Shunya option-chain streaming engine
(src/engines/zerodha), covering the parts reached by the verified claims:

- `snapshot_builder.py` : tick-to-row transformer (depth extraction,
  mid/spread, row and snapshot construction);
- `option_universe.py`  : the contract-metadata record built per token;
- `ticker_stream.py`    : token sharding across connections;
- `csv_writer.py`       : buffered writer with flush triggers, date
  rollover and the rename-on-rollover policy;
- `run_option_chain.py` : the scheduler's next-snapshot-time update.

Python dicts with optional keys are embedded as structures with `Option`
fields; prices are `Rat` (the code uses floating values, whose arithmetic
on the claim-relevant operations, sum, halving, difference, comparison
with 0, is exact); sizes are `Int`; dates are day numbers (`Nat`);
wall-clock instants are `Rat` seconds; the filesystem is an association
list from parsed file names to file contents.  Wall-clock reads
(`datetime.now`, `date.today`, `time.time`) and write-failure outcomes are
supplied through an explicit environment record, one per Python call that
consults the clock or performs I/O.
-/

namespace Shunya

/-- One order-book depth level, as the feed delivers it: a dict with
optional `price` and `quantity` keys (`level.get` in the source). -/
structure Level where
  price : Option Rat := none
  quantity : Option Int := none
deriving DecidableEq, Repr

/-- A tick as cached by the ticker stream: optional `last_price`,
`last_quantity`, timestamps (already converted to microseconds, the job of
`_ts_to_micros`), and the two depth sides (`depth.buy` / `depth.sell`,
each defaulting to the empty list when the key is missing). -/
structure Tick where
  last_price : Option Rat := none
  last_quantity : Option Int := none
  exchange_timestamp : Option Int := none
  timestamp : Option Int := none
  depth_buy : List Level := []
  depth_sell : List Level := []
deriving DecidableEq, Repr

/-- The two sides of the book, the `side` argument of `_extract_depth`
("buy" selects bids, "sell" selects asks). -/
inductive Side where
  | buy
  | sell
deriving DecidableEq, Repr

/-- `tick.get("depth", {}).get(side, [])` from `_extract_depth`. -/
def tickDepth (tick : Tick) : Side → List Level
  | Side.buy => tick.depth_buy
  | Side.sell => tick.depth_sell

/-- Contract metadata, the per-token dict built by
`OptionUniverse.build_universe` (option_universe.py lines 190-201). -/
structure ContractMeta where
  instrument_token : Int
  tradingsymbol : String
  underlying : String
  expiry : String
  expiry_yyyymmdd : String
  strike : Rat
  option_type : String
  option_type_short : String
  instrument_id : String
  lot_size : Int
deriving DecidableEq, Repr

/-- The metadata record exactly as the loop body of `build_universe`
assembles it: `option_type_short` is "C" for CE and "P" otherwise, and
`instrument_id` is `{underlying}_{expiry_yyyymmdd}_{int(strike)}{opt_type}`
(`int` truncates; strikes are nonnegative, so `floor`). -/
def mk_contract_meta (underlying tradingsymbol : String)
    (expiry_str expiry_yyyymmdd : String) (strike : Rat)
    (opt_type : String) (token : Int) (lot_size : Int) : ContractMeta :=
  { instrument_token := token
    tradingsymbol := tradingsymbol
    underlying := underlying
    expiry := expiry_str
    expiry_yyyymmdd := expiry_yyyymmdd
    strike := strike
    option_type := opt_type
    option_type_short := if opt_type = "CE" then "C" else "P"
    instrument_id :=
      underlying ++ "_" ++ expiry_yyyymmdd ++ "_" ++ toString strike.floor ++ opt_type
    lot_size := lot_size }

/-- The fixed 29-field snapshot row produced by `build_row`.  Field values
stay typed (`Option` for nullable ones); stringification happens later in
the persistence layer, as in the source. -/
structure SnapshotRow where
  ts : Int
  venue : String
  underlying_symbol : String
  underlying_spot : Option Rat
  instrument_id : String
  option_symbol : String
  expiry_date : String
  strike : Option Rat
  option_type : String
  best_bid_px : Option Rat
  best_bid_sz : Option Int
  best_ask_px : Option Rat
  best_ask_sz : Option Int
  mid_px : Option Rat
  spread : Option Rat
  last_trade_px : Option Rat
  last_trade_sz : Option Int
  bid_px_1 : Option Rat
  bid_sz_1 : Option Int
  bid_px_2 : Option Rat
  bid_sz_2 : Option Int
  bid_px_3 : Option Rat
  bid_sz_3 : Option Int
  ask_px_1 : Option Rat
  ask_sz_1 : Option Int
  ask_px_2 : Option Rat
  ask_sz_2 : Option Int
  ask_px_3 : Option Rat
  ask_sz_3 : Option Int
deriving DecidableEq, Repr

/-- The column order of snapshot_builder.py's `COLUMNS`. -/
def COLUMNS : List String :=
  ["ts", "venue", "underlying_symbol", "underlying_spot", "instrument_id",
   "option_symbol", "expiry_date", "strike", "option_type",
   "best_bid_px", "best_bid_sz", "best_ask_px", "best_ask_sz",
   "mid_px", "spread", "last_trade_px", "last_trade_sz",
   "bid_px_1", "bid_sz_1", "bid_px_2", "bid_sz_2", "bid_px_3", "bid_sz_3",
   "ask_px_1", "ask_sz_1", "ask_px_2", "ask_sz_2", "ask_px_3", "ask_sz_3"]

/-- `SnapshotBuilder._extract_depth`: walk `range(levels)`; inside the
available depth take the level's price/quantity, normalizing a price equal
to 0 to `(None, None)`; beyond the available depth emit `(None, None)`.
A missing price (`None`) compares unequal to 0, as in Python. -/
def extract_depth (tick : Tick) (side : Side) (levels : Nat) :
    List (Option Rat × Option Int) :=
  let depth := tickDepth tick side
  (List.range levels).map fun i =>
    match depth[i]? with
    | some level =>
        if level.price = some 0 then (none, none)
        else (level.price, level.quantity)
    | none => (none, none)

/-- `SnapshotBuilder._compute_mid_spread`: both outputs or neither. -/
def compute_mid_spread (best_bid best_ask : Option Rat) :
    Option Rat × Option Rat :=
  match best_bid, best_ask with
  | some b, some a => (some ((b + a) / 2), some (a - b))
  | _, _ => (none, none)

/-- First component of level `i`, the `lst[i][0] if len(lst) > i else None`
pattern of `build_row`. -/
def level_px (lst : List (Option Rat × Option Int)) (i : Nat) : Option Rat :=
  match lst[i]? with
  | some p => p.1
  | none => none

/-- Second component of level `i`. -/
def level_sz (lst : List (Option Rat × Option Int)) (i : Nat) : Option Int :=
  match lst[i]? with
  | some p => p.2
  | none => none

/-- `SnapshotBuilder.build_row`.  `spots` is the builder's
`_spot_prices` mapping, `venue_label` its venue string, `now_micros` the
value `_ts_to_micros()` would return at this call (a single wall-clock
reading), and tick timestamps are carried already in microseconds. -/
def build_row (spots : List (String × Rat)) (venue_label : String)
    (tick : Tick) (meta : ContractMeta) (ts_micros : Option Int)
    (now_micros : Int) : SnapshotRow :=
  let underlying := meta.underlying
  let spot := spots.lookup underlying
  let ts : Int :=
    match ts_micros with
    | some t => t
    | none =>
        match tick.exchange_timestamp.orElse (fun _ => tick.timestamp) with
        | some dt => dt
        | none => now_micros
  let bids := extract_depth tick Side.buy 3
  let asks := extract_depth tick Side.sell 3
  let best_bid_px := level_px bids 0
  let best_bid_sz := level_sz bids 0
  let best_ask_px := level_px asks 0
  let best_ask_sz := level_sz asks 0
  let ms := compute_mid_spread best_bid_px best_ask_px
  { ts := ts
    venue := venue_label
    underlying_symbol := underlying
    underlying_spot := spot
    instrument_id := meta.instrument_id
    option_symbol := meta.tradingsymbol
    expiry_date := meta.expiry
    strike := some meta.strike
    option_type := meta.option_type_short
    best_bid_px := best_bid_px
    best_bid_sz := best_bid_sz
    best_ask_px := best_ask_px
    best_ask_sz := best_ask_sz
    mid_px := ms.1
    spread := ms.2
    last_trade_px := tick.last_price
    last_trade_sz := some (tick.last_quantity.getD 0)
    bid_px_1 := level_px bids 0
    bid_sz_1 := level_sz bids 0
    bid_px_2 := level_px bids 1
    bid_sz_2 := level_sz bids 1
    bid_px_3 := level_px bids 2
    bid_sz_3 := level_sz bids 2
    ask_px_1 := level_px asks 0
    ask_sz_1 := level_sz asks 0
    ask_px_2 := level_px asks 1
    ask_sz_2 := level_sz asks 1
    ask_px_3 := level_px asks 2
    ask_sz_3 := level_sz asks 2 }

/-- `SnapshotBuilder.build_snapshot`: resolve the timestamp once (the
argument if supplied, otherwise one wall-clock reading), then one
`build_row` per entry of the token universe (the source's `universe`
argument, here `univ`) in iteration order, with `ticks.get(token, {})`
supplying an empty tick for tickless tokens. -/
def build_snapshot (spots : List (String × Rat)) (venue_label : String)
    (ticks : List (Int × Tick)) (univ : List (Int × ContractMeta))
    (ts_micros : Option Int) (now_micros : Int) : List SnapshotRow :=
  let ts : Int :=
    match ts_micros with
    | some t => t
    | none => now_micros
  univ.map fun p =>
    build_row spots venue_label ((ticks.lookup p.1).getD {}) p.2 (some ts) now_micros

/-- A parsed output file name,
`{UNDERLYING}_{VENUE}_OPTION_CHAIN_1S_{STARTYYYYMMDD}_{ENDYYYYMMDD}.csv`
(`CSVWriter._get_filename`), embedded by its four varying segments.  Dates
are day numbers; the fixed-width `YYYYMMDD` rendering is injective, so
name equality coincides with equality of this record. -/
structure FName where
  underlying : String
  venue : String
  start_d : Nat
  end_d : Nat
deriving DecidableEq, Repr

/-- One formatted CSV row (the formatted cell strings). -/
def Row := List String
deriving DecidableEq, Repr

/-- The output directory: file name to file contents (list of rows). -/
def FS := List (FName × List Row)
deriving DecidableEq, Repr

/-- Look a file up by name. -/
def fsGet : FS → FName → Option (List Row)
  | [], _ => none
  | (m, c) :: rest, n => if n = m then some c else fsGet rest n

/-- Create or overwrite a file's contents. -/
def fsPut : FS → FName → List Row → FS
  | [], n, c => [(n, c)]
  | (m, c0) :: rest, n, c =>
      if m = n then (n, c) :: rest else (m, c0) :: fsPut rest n c

/-- Delete a file. -/
def fsErase : FS → FName → FS
  | [], _ => []
  | (m, c) :: rest, n =>
      if m = n then fsErase rest n else (m, c) :: fsErase rest n

/-- The header row `_open_file` writes into a freshly created file. -/
def headerRow : Row := COLUMNS

/-- Environment of one writer operation: what the wall clock and the disk
would answer during that call.  `today` is `date.today()`, `now` is
`datetime.now()` in seconds, and `writeOk` is whether the
`csv_writer.writerows` call inside `_do_flush` succeeds (False embeds an
I/O failure that raises and is caught). -/
structure WEnv where
  today : Nat
  now : Rat
  writeOk : Bool
deriving DecidableEq, Repr

/-- `CSVWriter` state.  `fileOpen` stands for `_file_handle`/`_csv_writer`
being non-None (they are set and cleared together).  `flushCount` is pure
instrumentation, not present in the source: it counts the `_do_flush`
calls that pass the empty-buffer guard, so that "exactly one flush" can be
stated; no operation reads it. -/
structure CSVWriter where
  underlying : String
  venue : String
  flush_rows : Nat
  flush_interval : Rat
  buffer : List Row
  current_file : Option FName
  fileOpen : Bool
  start_date : Option Nat
  last_flush_time : Option Rat
  rows_written : Nat
  flushCount : Nat
deriving DecidableEq, Repr

/-- `CSVWriter.__init__`: empty buffer, no file, no dates, zero counters. -/
def init_writer (underlying venue : String) (flush_rows : Nat)
    (flush_interval : Rat) : CSVWriter :=
  { underlying := underlying
    venue := venue
    flush_rows := flush_rows
    flush_interval := flush_interval
    buffer := []
    current_file := none
    fileOpen := false
    start_date := none
    last_flush_time := none
    rows_written := 0
    flushCount := 0 }

/-- `CSVWriter._get_filename`, with both dates passed explicitly (the
source defaults `end_date` to `start_date`; call sites below pass the same
value where the source relies on the default). -/
def get_filename (w : CSVWriter) (start_d end_d : Nat) : FName :=
  { underlying := w.underlying, venue := w.venue
    start_d := start_d, end_d := end_d }

/-- `CSVWriter._close_file`: flush and close the handle (contents are
already modelled as durable, so only the open flag changes). -/
def close_file (w : CSVWriter) : CSVWriter :=
  { w with fileOpen := false }

/-- `CSVWriter._open_file`: close any open file, record the start date and
name, open in append mode (creating the file), write the header only when
the file did not previously exist, and stamp the last flush time. -/
def open_file (env : WEnv) (w : CSVWriter) (fs : FS) (for_date : Nat) :
    CSVWriter × FS :=
  let w := close_file w
  let name := get_filename w for_date for_date
  let fs :=
    if (fsGet fs name).isSome then fs else fsPut fs name [headerRow]
  ({ w with start_date := some for_date
            current_file := some name
            fileOpen := true
            last_flush_time := some env.now }, fs)

/-- `CSVWriter._rename_with_end_date`: when today differs from the start
date, close the file and rename it to `{start}_{today}`, but only when the
source file exists and the target does not; otherwise leave names alone. -/
def rename_with_end_date (env : WEnv) (w : CSVWriter) (fs : FS) :
    CSVWriter × FS :=
  match w.current_file, w.start_date with
  | some cur, some sd =>
      if env.today ≠ sd then
        let newName := get_filename w sd env.today
        let w := close_file w
        match fsGet fs cur, fsGet fs newName with
        | some content, none =>
            ({ w with current_file := some newName },
             fsPut (fsErase fs cur) newName content)
        | _, _ => (w, fs)
      else (w, fs)
  | _, _ => (w, fs)

/-- `CSVWriter._check_rollover`: on a date change, rename the old file
with the end date and open a fresh file for today. -/
def check_rollover (env : WEnv) (w : CSVWriter) (fs : FS) :
    CSVWriter × FS :=
  match w.start_date with
  | some sd =>
      if sd ≠ env.today then
        let p := rename_with_end_date env w fs
        open_file env p.1 p.2 env.today
      else (w, fs)
  | none => (w, fs)

/-- `CSVWriter._do_flush`: bail out on an empty buffer; check rollover;
open today's file if none is open; attempt the write (on success append
the buffer to the file and bump `rows_written`, on failure only log); in
all cases clear the buffer and stamp the flush time. -/
def do_flush (env : WEnv) (w : CSVWriter) (fs : FS) : CSVWriter × FS :=
  if w.buffer.isEmpty then (w, fs)
  else
    let p := check_rollover env w fs
    let p := if p.1.fileOpen then p else open_file env p.1 p.2 env.today
    let w := p.1
    let q :=
      if env.writeOk then
        match w.current_file with
        | some cur =>
            ({ w with rows_written := w.rows_written + w.buffer.length },
             fsPut p.2 cur ((fsGet p.2 cur).getD [] ++ w.buffer))
        | none => (w, p.2)
      else (w, p.2)
    ({ q.1 with buffer := []
                last_flush_time := some env.now
                flushCount := q.1.flushCount + 1 }, q.2)

/-- `CSVWriter.write_row` for an already formatted row: append to the
buffer and flush once the buffer length reaches `flush_rows`. -/
def write_row (env : WEnv) (w : CSVWriter) (fs : FS) (row : Row) :
    CSVWriter × FS :=
  let w := { w with buffer := w.buffer ++ [row] }
  if w.flush_rows ≤ w.buffer.length then do_flush env w fs else (w, fs)

/-- `CSVWriter.write_rows`: extend the buffer with all rows, then apply
the same size trigger once. -/
def write_rows (env : WEnv) (w : CSVWriter) (fs : FS) (rows : List Row) :
    CSVWriter × FS :=
  let w := { w with buffer := w.buffer ++ rows }
  if w.flush_rows ≤ w.buffer.length then do_flush env w fs else (w, fs)

/-- `CSVWriter.flush`: force a flush. -/
def force_flush (env : WEnv) (w : CSVWriter) (fs : FS) : CSVWriter × FS :=
  do_flush env w fs

/-- `CSVWriter.check_time_flush`: no recorded last flush means return at
once; otherwise flush only when the elapsed time has reached
`flush_interval_seconds` and the buffer is non-empty. -/
def check_time_flush (env : WEnv) (w : CSVWriter) (fs : FS) :
    CSVWriter × FS :=
  match w.last_flush_time with
  | none => (w, fs)
  | some t =>
      if w.flush_interval ≤ env.now - t then
        if w.buffer.isEmpty then (w, fs) else do_flush env w fs
      else (w, fs)

/-- `CSVWriter.close`: flush any remaining buffer, then close the file. -/
def close_writer (env : WEnv) (w : CSVWriter) (fs : FS) : CSVWriter × FS :=
  let p := if w.buffer.isEmpty then (w, fs) else do_flush env w fs
  (close_file p.1, p.2)

/-- Iterated `write_row` over a list of rows. -/
def write_row_seq (env : WEnv) (rows : List Row) (w : CSVWriter) (fs : FS) :
    CSVWriter × FS :=
  rows.foldl (fun p r => write_row env p.1 p.2 r) (w, fs)

/-- `TickerStream.MAX_TOKENS_PER_CONNECTION`. -/
def MAX_TOKENS_PER_CONNECTION : Nat := 3000

/-- `MultiTickerStream.MAX_CONNECTIONS`. -/
def MAX_CONNECTIONS : Nat := 3

/-- The chunking loop of `MultiTickerStream.set_tokens`:
`for i in range(0, len(tokens), size): chunks.append(tokens[i:i+size])`.
A zero step is never used (the source step is the constant 3000). -/
def chunk_tokens : Nat → List Int → List (List Int)
  | _, [] => []
  | 0, _ :: _ => []
  | n + 1, x :: xs => (x :: xs.take n) :: chunk_tokens (n + 1) (xs.drop n)
termination_by _ l => l.length
decreasing_by simp [List.length_drop]; omega

/-- `MultiTickerStream.set_tokens`, reduced to its token bookkeeping: drop
tokens beyond `3000 × 3` keeping the first ones in input order, then cut
the rest into consecutive chunks of at most 3000, one per created
`TickerStream`. -/
def set_tokens_shards (tokens : List Int) : List (List Int) :=
  let max_per_stream := MAX_TOKENS_PER_CONNECTION
  let max_total := max_per_stream * MAX_CONNECTIONS
  let tokens :=
    if max_total < tokens.length then tokens.take max_total else tokens
  chunk_tokens max_per_stream tokens

/-- The `next_snapshot` update of `OptionChainStreamer._snapshot_loop`:
when the loop-check time `now` has reached the schedule, the snapshot
fires and the next time becomes `now + interval`; otherwise it is kept. -/
def schedule_next (interval now next_snapshot : Rat) : Rat :=
  if next_snapshot ≤ now then now + interval else next_snapshot

/-! ## Chunking lemmas for the feed orchestrator -/

/-- Chunking reassembles exactly its input: concatenating the chunks in
order gives back the chunked list. -/
theorem chunk_tokens_flatten (n : Nat) (l : List Int) (hn : 0 < n) :
    (chunk_tokens n l).flatten = l := by
  induction n, l using chunk_tokens.induct with
  | case1 n => simp [chunk_tokens]
  | case2 x xs => omega
  | case3 n x xs ih =>
      rw [chunk_tokens]
      rw [List.flatten_cons, ih (Nat.succ_pos n)]
      simp [List.take_append_drop]

/-- The number of chunks is the ceiling of length / chunk size. -/
theorem chunk_tokens_length (n : Nat) (l : List Int) (hn : 0 < n) :
    (chunk_tokens n l).length = (l.length + (n - 1)) / n := by
  induction n, l using chunk_tokens.induct with
  | case1 n =>
      rw [chunk_tokens]
      simp only [List.length_nil, Nat.zero_add]
      rw [Nat.div_eq_of_lt (by omega)]
  | case2 x xs => omega
  | case3 n x xs ih =>
      rw [chunk_tokens]
      rw [List.length_cons, ih (Nat.succ_pos n)]
      rw [List.length_drop]
      simp only [Nat.succ_eq_add_one, Nat.add_sub_cancel, List.length_cons]
      have hr : xs.length + 1 + n = xs.length + (n + 1) := by omega
      rw [hr, Nat.add_div_right _ (Nat.succ_pos n)]
      rcases Nat.le_total n xs.length with h | h
      · rw [Nat.sub_add_cancel h]
      · have h0 : xs.length - n = 0 := by omega
        rw [h0, Nat.zero_add, Nat.div_eq_of_lt (by omega),
          Nat.div_eq_of_lt (by omega)]

/-- Every chunk holds at most the chunk size. -/
theorem chunk_tokens_mem_le (n : Nat) (l : List Int) (c : List Int)
    (h : c ∈ chunk_tokens n l) : c.length ≤ n := by
  induction n, l using chunk_tokens.induct with
  | case1 n => simp [chunk_tokens] at h
  | case2 x xs => simp [chunk_tokens] at h
  | case3 n x xs ih =>
      rw [chunk_tokens] at h
      rcases List.mem_cons.mp h with h | h
      · subst h
        simp only [List.length_cons, List.length_take]
        omega
      · exact ih h

/-- C7: for N distinct tokens, set_tokens creates
min(MAX_CONNECTIONS, ceil(N / MAX_TOKENS_PER_CONNECTION)) shards, each of
at most 3000 tokens, pairwise disjoint; past capacity exactly the first
9000 tokens are kept in input order (their concatenation is the take), and
within capacity nothing is dropped or reordered. -/
theorem set_tokens_sharding (tokens : List Int) (hnd : tokens.Nodup) :
    (set_tokens_shards tokens).length =
      min MAX_CONNECTIONS
        ((tokens.length + (MAX_TOKENS_PER_CONNECTION - 1)) /
          MAX_TOKENS_PER_CONNECTION) ∧
    (∀ s ∈ set_tokens_shards tokens, s.length ≤ MAX_TOKENS_PER_CONNECTION) ∧
    List.Pairwise List.Disjoint (set_tokens_shards tokens) ∧
    (MAX_TOKENS_PER_CONNECTION * MAX_CONNECTIONS < tokens.length →
      (set_tokens_shards tokens).flatten =
        tokens.take (MAX_TOKENS_PER_CONNECTION * MAX_CONNECTIONS)) ∧
    (tokens.length ≤ MAX_TOKENS_PER_CONNECTION * MAX_CONNECTIONS →
      (set_tokens_shards tokens).flatten = tokens) := by
  by_cases hlen : MAX_TOKENS_PER_CONNECTION * MAX_CONNECTIONS < tokens.length
  · have hshards : set_tokens_shards tokens =
        chunk_tokens MAX_TOKENS_PER_CONNECTION
          (tokens.take (MAX_TOKENS_PER_CONNECTION * MAX_CONNECTIONS)) := by
      simp only [set_tokens_shards, if_pos hlen]
    have hflat : (set_tokens_shards tokens).flatten =
        tokens.take (MAX_TOKENS_PER_CONNECTION * MAX_CONNECTIONS) := by
      rw [hshards]
      exact chunk_tokens_flatten _ _ (by norm_num [MAX_TOKENS_PER_CONNECTION])
    refine ⟨?_, ?_, ?_, fun _ => hflat, fun h => absurd hlen (by omega)⟩
    · rw [hshards, chunk_tokens_length _ _
        (by norm_num [MAX_TOKENS_PER_CONNECTION]), List.length_take]
      simp only [MAX_TOKENS_PER_CONNECTION, MAX_CONNECTIONS] at hlen ⊢
      omega
    · intro s hs
      rw [hshards] at hs
      exact chunk_tokens_mem_le _ _ _ hs
    · have hnodup : (set_tokens_shards tokens).flatten.Nodup := by
        rw [hflat]
        exact hnd.sublist
          (List.take_sublist (MAX_TOKENS_PER_CONNECTION * MAX_CONNECTIONS) tokens)
      exact (List.nodup_flatten.mp hnodup).2
  · have hshards : set_tokens_shards tokens =
        chunk_tokens MAX_TOKENS_PER_CONNECTION tokens := by
      simp only [set_tokens_shards, if_neg hlen]
    have hflat : (set_tokens_shards tokens).flatten = tokens := by
      rw [hshards]
      exact chunk_tokens_flatten _ _ (by norm_num [MAX_TOKENS_PER_CONNECTION])
    refine ⟨?_, ?_, ?_, fun h => absurd h hlen, fun _ => hflat⟩
    · rw [hshards, chunk_tokens_length _ _
        (by norm_num [MAX_TOKENS_PER_CONNECTION])]
      simp only [MAX_TOKENS_PER_CONNECTION, MAX_CONNECTIONS] at hlen ⊢
      omega
    · intro s hs
      rw [hshards] at hs
      exact chunk_tokens_mem_le _ _ _ hs
    · have hnodup : (set_tokens_shards tokens).flatten.Nodup := by
        rw [hflat]; exact hnd
      exact (List.nodup_flatten.mp hnodup).2

/-- Witness for C7 at the three distinct tokens [1, 2, 3]: one shard. -/
theorem set_tokens_sharding_witness :
    (set_tokens_shards [1, 2, 3]).length =
      min MAX_CONNECTIONS
        (([1, 2, 3].length + (MAX_TOKENS_PER_CONNECTION - 1)) /
          MAX_TOKENS_PER_CONNECTION) ∧
    ([1, 2, 3].length ≤ MAX_TOKENS_PER_CONNECTION * MAX_CONNECTIONS →
      (set_tokens_shards [1, 2, 3]).flatten = [1, 2, 3]) :=
  ⟨(set_tokens_sharding [1, 2, 3] (by decide)).1,
   (set_tokens_sharding [1, 2, 3] (by decide)).2.2.2.2⟩

/-! ## Transformer claims -/

/-- C5: for every tick and side, depth extraction returns exactly 3
(price, quantity) pairs; a level whose price is exactly 0 is normalized to
(null, null) regardless of its quantity; and each level beyond the
available depth is (null, null). -/
theorem extract_depth_three_levels (tick : Tick) (side : Side) :
    (extract_depth tick side 3).length = 3 ∧
    (∀ i level, i < 3 → (tickDepth tick side)[i]? = some level →
      level.price = some 0 →
      (extract_depth tick side 3)[i]? = some (none, none)) ∧
    (∀ i, i < 3 → (tickDepth tick side).length ≤ i →
      (extract_depth tick side 3)[i]? = some (none, none)) := by
  refine ⟨by simp [extract_depth], ?_, ?_⟩
  · intro i level hi hlv hp
    simp [extract_depth, List.getElem?_map, List.getElem?_range hi, hlv, hp]
  · intro i hi hlen
    have hnone : (tickDepth tick side)[i]? = none :=
      List.getElem?_eq_none hlen
    simp [extract_depth, List.getElem?_map, List.getElem?_range hi, hnone]

/-- Witness for C5 on a concrete tick: one bid level with price 0 and
quantity 5 yields three pairs, the zero-price level normalized away and
the out-of-depth level null. -/
theorem extract_depth_three_levels_witness :
    (extract_depth { depth_buy := [{ price := some 0, quantity := some 5 }] }
        Side.buy 3).length = 3 ∧
    (extract_depth { depth_buy := [{ price := some 0, quantity := some 5 }] }
        Side.buy 3)[0]? = some (none, none) ∧
    (extract_depth { depth_buy := [{ price := some 0, quantity := some 5 }] }
        Side.buy 3)[1]? = some (none, none) := by
  refine ⟨(extract_depth_three_levels _ Side.buy).1, ?_, ?_⟩
  · exact (extract_depth_three_levels _ Side.buy).2.1 0
      { price := some 0, quantity := some 5 } (by decide) rfl rfl
  · exact (extract_depth_three_levels _ Side.buy).2.2 1 (by decide) (by decide)

/-- C6: in every row the transformer builds, mid_px and spread are both
non-null exactly when both best_bid_px and best_ask_px are non-null; in
that case mid_px = (bid + ask) / 2 and spread = ask - bid exactly; and
otherwise — as soon as either best price is missing — both mid_px and
spread are null, with no partial computation. -/
theorem mid_spread_of_build_row (spots : List (String × Rat))
    (venue_label : String) (tick : Tick) (meta : ContractMeta)
    (ts_micros : Option Int) (now_micros : Int) :
    (((build_row spots venue_label tick meta ts_micros now_micros).mid_px.isSome ∧
      (build_row spots venue_label tick meta ts_micros now_micros).spread.isSome) ↔
     ((build_row spots venue_label tick meta ts_micros now_micros).best_bid_px.isSome ∧
      (build_row spots venue_label tick meta ts_micros now_micros).best_ask_px.isSome)) ∧
    (∀ b a,
      (build_row spots venue_label tick meta ts_micros now_micros).best_bid_px = some b →
      (build_row spots venue_label tick meta ts_micros now_micros).best_ask_px = some a →
      (build_row spots venue_label tick meta ts_micros now_micros).mid_px =
        some ((b + a) / 2) ∧
      (build_row spots venue_label tick meta ts_micros now_micros).spread =
        some (a - b)) ∧
    ((build_row spots venue_label tick meta ts_micros now_micros).best_bid_px = none ∨
     (build_row spots venue_label tick meta ts_micros now_micros).best_ask_px = none →
      (build_row spots venue_label tick meta ts_micros now_micros).mid_px = none ∧
      (build_row spots venue_label tick meta ts_micros now_micros).spread = none) := by
  have hm : (build_row spots venue_label tick meta ts_micros now_micros).mid_px =
      (compute_mid_spread
        (build_row spots venue_label tick meta ts_micros now_micros).best_bid_px
        (build_row spots venue_label tick meta ts_micros now_micros).best_ask_px).1 := rfl
  have hs : (build_row spots venue_label tick meta ts_micros now_micros).spread =
      (compute_mid_spread
        (build_row spots venue_label tick meta ts_micros now_micros).best_bid_px
        (build_row spots venue_label tick meta ts_micros now_micros).best_ask_px).2 := rfl
  refine ⟨?_, ?_, ?_⟩
  · rw [hm, hs]
    cases (build_row spots venue_label tick meta ts_micros now_micros).best_bid_px <;>
      cases (build_row spots venue_label tick meta ts_micros now_micros).best_ask_px <;>
        simp [compute_mid_spread]
  · intro b a hb ha
    rw [hm, hs, hb, ha]
    exact ⟨rfl, rfl⟩
  · intro h
    rw [hm, hs]
    rcases h with h | h
    · rw [h]
      simp [compute_mid_spread]
    · rw [h]
      cases (build_row spots venue_label tick meta ts_micros now_micros).best_bid_px <;>
        simp [compute_mid_spread]

/-- Witness for C6: with best bid 150 and best ask 160 present in the
tick, the built row carries mid 155 and spread 10; with the ask side
missing (zero-price sentinel), mid and spread are both null. -/
theorem mid_spread_of_build_row_witness :
    ((build_row [] "NSE-FO"
        { depth_buy := [{ price := some 150, quantity := some 1 }]
          depth_sell := [{ price := some 160, quantity := some 2 }] }
        (mk_contract_meta "NIFTY" "S" "2025-01-30" "20250130" 24000 "CE" 111 75)
        (some 0) 0).mid_px = some 155 ∧
     (build_row [] "NSE-FO"
        { depth_buy := [{ price := some 150, quantity := some 1 }]
          depth_sell := [{ price := some 160, quantity := some 2 }] }
        (mk_contract_meta "NIFTY" "S" "2025-01-30" "20250130" 24000 "CE" 111 75)
        (some 0) 0).spread = some 10) ∧
    ((build_row [] "NSE-FO"
        { depth_buy := [{ price := some 150, quantity := some 1 }]
          depth_sell := [{ price := some 0, quantity := some 0 }] }
        (mk_contract_meta "NIFTY" "S" "2025-01-30" "20250130" 24000 "CE" 111 75)
        (some 0) 0).mid_px = none ∧
     (build_row [] "NSE-FO"
        { depth_buy := [{ price := some 150, quantity := some 1 }]
          depth_sell := [{ price := some 0, quantity := some 0 }] }
        (mk_contract_meta "NIFTY" "S" "2025-01-30" "20250130" 24000 "CE" 111 75)
        (some 0) 0).spread = none) := by
  have h := (mid_spread_of_build_row [] "NSE-FO"
      { depth_buy := [{ price := some 150, quantity := some 1 }]
        depth_sell := [{ price := some 160, quantity := some 2 }] }
      (mk_contract_meta "NIFTY" "S" "2025-01-30" "20250130" 24000 "CE" 111 75)
      (some 0) 0).2.1 150 160 (by decide) (by decide)
  have h2 := (mid_spread_of_build_row [] "NSE-FO"
      { depth_buy := [{ price := some 150, quantity := some 1 }]
        depth_sell := [{ price := some 0, quantity := some 0 }] }
      (mk_contract_meta "NIFTY" "S" "2025-01-30" "20250130" 24000 "CE" 111 75)
      (some 0) 0).2.2 (Or.inr (by decide))
  refine ⟨⟨h.1.trans ?_, h.2.trans ?_⟩, h2⟩ <;> norm_num

/-- C4: build_snapshot yields exactly one row per universe entry, in the
universe's iteration order: the output length is the universe's size and
the i-th row is built from the i-th entry's metadata (witnessed here
through its identity fields). -/
theorem build_snapshot_one_row_per_token (spots : List (String × Rat))
    (venue_label : String) (ticks : List (Int × Tick))
    (univ : List (Int × ContractMeta)) (ts_micros : Option Int)
    (now_micros : Int) :
    (build_snapshot spots venue_label ticks univ ts_micros now_micros).length =
      univ.length ∧
    ∀ (i : Nat) (token : Int) (meta : ContractMeta),
      univ[i]? = some (token, meta) →
      ∃ row,
        (build_snapshot spots venue_label ticks univ ts_micros now_micros)[i]? =
          some row ∧
        row.instrument_id = meta.instrument_id ∧
        row.option_symbol = meta.tradingsymbol ∧
        row.underlying_symbol = meta.underlying ∧
        row.strike = some meta.strike := by
  refine ⟨by simp [build_snapshot], ?_⟩
  intro i token meta h
  refine ⟨build_row spots venue_label ((ticks.lookup token).getD {}) meta
      (some (match ts_micros with | some t => t | none => now_micros))
      now_micros, ?_, rfl, rfl, rfl, rfl⟩
  simp [build_snapshot, List.getElem?_map, h]

/-- Witness for C4 on a two-entry universe with an empty tick cache. -/
theorem build_snapshot_one_row_per_token_witness :
    (build_snapshot [] "NSE-FO" []
        [(111, mk_contract_meta "NIFTY" "A" "2025-01-30" "20250130" 24000 "CE" 111 75),
         (222, mk_contract_meta "NIFTY" "B" "2025-01-30" "20250130" 24000 "PE" 222 75)]
        (some 0) 0).length = 2 ∧
    ∃ row,
      (build_snapshot [] "NSE-FO" []
          [(111, mk_contract_meta "NIFTY" "A" "2025-01-30" "20250130" 24000 "CE" 111 75),
           (222, mk_contract_meta "NIFTY" "B" "2025-01-30" "20250130" 24000 "PE" 222 75)]
          (some 0) 0)[1]? = some row ∧
      row.instrument_id =
        (mk_contract_meta "NIFTY" "B" "2025-01-30" "20250130" 24000 "PE" 222 75).instrument_id ∧
      row.option_symbol =
        (mk_contract_meta "NIFTY" "B" "2025-01-30" "20250130" 24000 "PE" 222 75).tradingsymbol ∧
      row.underlying_symbol =
        (mk_contract_meta "NIFTY" "B" "2025-01-30" "20250130" 24000 "PE" 222 75).underlying ∧
      row.strike =
        some (mk_contract_meta "NIFTY" "B" "2025-01-30" "20250130" 24000 "PE" 222 75).strike := by
  have h := build_snapshot_one_row_per_token [] "NSE-FO" []
      [(111, mk_contract_meta "NIFTY" "A" "2025-01-30" "20250130" 24000 "CE" 111 75),
       (222, mk_contract_meta "NIFTY" "B" "2025-01-30" "20250130" 24000 "PE" 222 75)]
      (some 0) 0
  exact ⟨h.1, h.2 1 222
    (mk_contract_meta "NIFTY" "B" "2025-01-30" "20250130" 24000 "PE" 222 75) rfl⟩

/-- C10: every row of one build_snapshot call carries the same ts, the
ts_micros argument when supplied and otherwise the single wall-clock
reading taken at the start of the call; the conclusion does not depend on
the tick cache, so cached per-tick exchange timestamps never reach ts. -/
theorem build_snapshot_uniform_ts (spots : List (String × Rat))
    (venue_label : String) (ticks : List (Int × Tick))
    (univ : List (Int × ContractMeta)) (ts_micros : Option Int)
    (now_micros : Int) (row : SnapshotRow)
    (h : row ∈ build_snapshot spots venue_label ticks univ ts_micros now_micros) :
    row.ts = ts_micros.getD now_micros := by
  simp only [build_snapshot, List.mem_map] at h
  obtain ⟨p, _, rfl⟩ := h
  cases ts_micros <;> rfl

/-- Witness for C10: a cached tick carrying exchange timestamp 777 does
not change the row ts away from the supplied 424242. -/
theorem build_snapshot_uniform_ts_witness :
    ∃ row,
      row ∈ build_snapshot [] "NSE-FO" [(111, { exchange_timestamp := some 777 })]
        [(111, mk_contract_meta "NIFTY" "A" "2025-01-30" "20250130" 24000 "CE" 111 75)]
        (some 424242) 0 ∧
      row.ts = (some (424242 : Int)).getD 0 := by
  refine ⟨_, List.mem_map.mpr ⟨(111,
      mk_contract_meta "NIFTY" "A" "2025-01-30" "20250130" 24000 "CE" 111 75),
      by decide, rfl⟩, ?_⟩
  exact build_snapshot_uniform_ts [] "NSE-FO"
    [(111, { exchange_timestamp := some 777 })]
    [(111, mk_contract_meta "NIFTY" "A" "2025-01-30" "20250130" 24000 "CE" 111 75)]
    (some 424242) 0 _
    (List.mem_map.mpr ⟨(111,
      mk_contract_meta "NIFTY" "A" "2025-01-30" "20250130" 24000 "CE" 111 75),
      by decide, rfl⟩)

/-! ## The end-to-end scenario of C3 -/

/-- Universe entry for token 111, NIFTY 24000 CE. -/
def c3_meta_ce : ContractMeta :=
  mk_contract_meta "NIFTY" "NIFTY24000CE" "2025-01-30" "20250130" 24000 "CE" 111 75

/-- Universe entry for token 222, NIFTY 24000 PE. -/
def c3_meta_pe : ContractMeta :=
  mk_contract_meta "NIFTY" "NIFTY24000PE" "2025-01-30" "20250130" 24000 "PE" 222 75

/-- The cached tick for token 111: last_price 120.5, one buy level
(150, 100), one sell level (0, 0). -/
def c3_tick : Tick :=
  { last_price := some (241 / 2)
    depth_buy := [{ price := some 150, quantity := some 100 }]
    depth_sell := [{ price := some 0, quantity := some 0 }] }

/-- The scenario's snapshot: spot NIFTY 24010, tick cache holding only
token 111, universe 111 then 222. -/
def c3_rows : List SnapshotRow :=
  build_snapshot [("NIFTY", 24010)] "NSE-FO" [(111, c3_tick)]
    [(111, c3_meta_ce), (222, c3_meta_pe)] (some 1000) 999

/-- C3 counterexample: in the row built for token 222 (no tick), the size
field last_trade_sz is 0, not null — `tick.get("last_quantity", 0)`
defaults a missing tick's quantity to 0 — so "every price/size field
null" fails as stated. -/
theorem c3_last_trade_sz_not_null :
    (c3_rows.map SnapshotRow.last_trade_sz)[1]? = some (some 0) ∧
    some (some (0 : Int)) ≠ some (none : Option Int) := by
  exact ⟨rfl, by decide⟩

/-- C3 amended: the row for 111 has best_bid_px 150, best_bid_sz 100,
best_ask_px null (zero-price sentinel), mid and spread null,
underlying_spot 24010 and option_type "C"; the row for 222 has every
price/size field null except last_trade_sz, which is 0 because the code
defaults a missing tick's last_quantity to 0, and its metadata fields are
populated (underlying_spot is the shared NIFTY spot 24010). -/
theorem c3_scenario_rows :
    c3_rows.length = 2 ∧
    c3_rows.map SnapshotRow.best_bid_px = [some 150, none] ∧
    c3_rows.map SnapshotRow.best_bid_sz = [some 100, none] ∧
    c3_rows.map SnapshotRow.best_ask_px = [none, none] ∧
    c3_rows.map SnapshotRow.best_ask_sz = [none, none] ∧
    c3_rows.map SnapshotRow.mid_px = [none, none] ∧
    c3_rows.map SnapshotRow.spread = [none, none] ∧
    c3_rows.map SnapshotRow.underlying_spot = [some 24010, some 24010] ∧
    c3_rows.map SnapshotRow.option_type = ["C", "P"] ∧
    c3_rows.map SnapshotRow.last_trade_px = [some (241 / 2), none] ∧
    c3_rows.map SnapshotRow.last_trade_sz = [some 0, some 0] ∧
    c3_rows.map SnapshotRow.bid_px_1 = [some 150, none] ∧
    c3_rows.map SnapshotRow.bid_sz_1 = [some 100, none] ∧
    c3_rows.map SnapshotRow.bid_px_2 = [none, none] ∧
    c3_rows.map SnapshotRow.bid_sz_2 = [none, none] ∧
    c3_rows.map SnapshotRow.bid_px_3 = [none, none] ∧
    c3_rows.map SnapshotRow.bid_sz_3 = [none, none] ∧
    c3_rows.map SnapshotRow.ask_px_1 = [none, none] ∧
    c3_rows.map SnapshotRow.ask_sz_1 = [none, none] ∧
    c3_rows.map SnapshotRow.ask_px_2 = [none, none] ∧
    c3_rows.map SnapshotRow.ask_sz_2 = [none, none] ∧
    c3_rows.map SnapshotRow.ask_px_3 = [none, none] ∧
    c3_rows.map SnapshotRow.ask_sz_3 = [none, none] ∧
    c3_rows.map SnapshotRow.ts = [1000, 1000] ∧
    c3_rows.map SnapshotRow.venue = ["NSE-FO", "NSE-FO"] ∧
    c3_rows.map SnapshotRow.underlying_symbol = ["NIFTY", "NIFTY"] ∧
    c3_rows.map SnapshotRow.option_symbol = ["NIFTY24000CE", "NIFTY24000PE"] ∧
    c3_rows.map SnapshotRow.expiry_date = ["2025-01-30", "2025-01-30"] ∧
    c3_rows.map SnapshotRow.strike = [some 24000, some 24000] ∧
    c3_rows.map SnapshotRow.instrument_id =
      ["NIFTY_20250130_24000CE", "NIFTY_20250130_24000PE"] := by
  refine ⟨rfl, rfl, rfl, rfl, rfl, rfl, rfl, rfl, rfl, rfl, rfl, rfl, rfl,
    rfl, rfl, rfl, rfl, rfl, rfl, rfl, rfl, rfl, rfl, rfl, rfl, rfl, rfl,
    rfl, rfl, rfl⟩

/-! ## Scheduler claim -/

/-- C8 counterexample: with interval 1, previous nextSnapshotTime 10 and a
loop check at 10.5, the snapshot fires and the code sets the next time to
11.5 = now + interval, not 11 = previous + interval as the claim states. -/
theorem schedule_next_not_previous_plus_interval :
    schedule_next 1 (21 / 2) 10 = 23 / 2 ∧ (23 / 2 : Rat) ≠ 10 + 1 := by
  constructor
  · rw [schedule_next, if_pos (by norm_num)]
    norm_num
  · norm_num

/-- C8 amended: on an iteration where the snapshot fires, the code sets
nextSnapshotTime to now + interval, `now` being the loop-check time
captured before the snapshot work; hence after a cycle lasting d ≥
interval, the following check at time now + d again fires immediately,
though the cadence drifts with the check latency instead of being fixed. -/
theorem schedule_next_fires_immediately (interval now next_snapshot : Rat)
    (h : next_snapshot ≤ now) :
    schedule_next interval now next_snapshot = now + interval ∧
    ∀ d : Rat, interval ≤ d →
      schedule_next interval now next_snapshot ≤ now + d := by
  constructor
  · rw [schedule_next, if_pos h]
  · intro d hd
    rw [schedule_next, if_pos h]
    linarith

/-- Witness for C8's amended statement at interval 1, next 10, now 10.5. -/
theorem schedule_next_fires_immediately_witness :
    schedule_next 1 (21 / 2) 10 = 21 / 2 + 1 ∧
    ∀ d : Rat, 1 ≤ d → schedule_next 1 (21 / 2) 10 ≤ 21 / 2 + d :=
  schedule_next_fires_immediately 1 (21 / 2) 10 (by norm_num)

/-! ## Persistence-layer lemmas and claims -/

/-- Writing a file and reading it back yields the written content. -/
theorem fsGet_fsPut_same (fs : FS) (n : FName) (c : List Row) :
    fsGet (fsPut fs n c) n = some c := by
  induction fs with
  | nil => simp [fsPut, fsGet]
  | cons hd tl ih =>
      obtain ⟨m, c0⟩ := hd
      by_cases h : m = n
      · subst h
        simp [fsPut, fsGet]
      · simp [fsPut, fsGet, h, Ne.symm h, ih]

/-- Writing one file leaves every other file unchanged. -/
theorem fsGet_fsPut_ne (fs : FS) (n m : FName) (c : List Row) (h : m ≠ n) :
    fsGet (fsPut fs n c) m = fsGet fs m := by
  induction fs with
  | nil => simp [fsPut, fsGet, h]
  | cons hd tl ih =>
      obtain ⟨k, c0⟩ := hd
      by_cases hk : k = n
      · subst hk
        simp [fsPut, fsGet, h]
      · simp [fsPut, fsGet, hk, ih]

/-- A deleted file is gone. -/
theorem fsGet_fsErase_same (fs : FS) (n : FName) :
    fsGet (fsErase fs n) n = none := by
  induction fs with
  | nil => simp [fsErase, fsGet]
  | cons hd tl ih =>
      obtain ⟨k, c0⟩ := hd
      by_cases hk : k = n
      · subst hk
        simp [fsErase, ih]
      · simp [fsErase, fsGet, hk, Ne.symm hk, ih]

/-- Deleting one file leaves every other file unchanged. -/
theorem fsGet_fsErase_ne (fs : FS) (n m : FName) (h : m ≠ n) :
    fsGet (fsErase fs n) m = fsGet fs m := by
  induction fs with
  | nil => simp [fsErase]
  | cons hd tl ih =>
      obtain ⟨k, c0⟩ := hd
      by_cases hk : k = n
      · subst hk
        simp [fsErase, fsGet, h, ih]
      · by_cases hm : m = k
        · subst hm
          simp [fsErase, fsGet, hk]
        · simp [fsErase, fsGet, hk, hm, ih]

/-- Opening a file touches neither the buffer nor any counter. -/
theorem open_file_preserves (env : WEnv) (w : CSVWriter) (fs : FS) (d : Nat) :
    (open_file env w fs d).1.buffer = w.buffer ∧
    (open_file env w fs d).1.flushCount = w.flushCount ∧
    (open_file env w fs d).1.flush_rows = w.flush_rows ∧
    (open_file env w fs d).1.flush_interval = w.flush_interval ∧
    (open_file env w fs d).1.rows_written = w.rows_written ∧
    (open_file env w fs d).1.underlying = w.underlying ∧
    (open_file env w fs d).1.venue = w.venue := by
  simp [open_file, close_file]

/-- The rename step touches neither the buffer nor any counter. -/
theorem rename_preserves (env : WEnv) (w : CSVWriter) (fs : FS) :
    (rename_with_end_date env w fs).1.buffer = w.buffer ∧
    (rename_with_end_date env w fs).1.flushCount = w.flushCount ∧
    (rename_with_end_date env w fs).1.flush_rows = w.flush_rows ∧
    (rename_with_end_date env w fs).1.flush_interval = w.flush_interval ∧
    (rename_with_end_date env w fs).1.rows_written = w.rows_written ∧
    (rename_with_end_date env w fs).1.underlying = w.underlying ∧
    (rename_with_end_date env w fs).1.venue = w.venue := by
  cases hc : w.current_file with
  | none => simp [rename_with_end_date, hc]
  | some cur =>
      cases hs : w.start_date with
      | none => simp [rename_with_end_date, hc, hs]
      | some sd =>
          simp only [rename_with_end_date, hc, hs]
          split
          · split <;> simp [close_file]
          · simp

/-- The rollover check touches neither the buffer nor any counter. -/
theorem check_rollover_preserves (env : WEnv) (w : CSVWriter) (fs : FS) :
    (check_rollover env w fs).1.buffer = w.buffer ∧
    (check_rollover env w fs).1.flushCount = w.flushCount ∧
    (check_rollover env w fs).1.flush_rows = w.flush_rows ∧
    (check_rollover env w fs).1.flush_interval = w.flush_interval ∧
    (check_rollover env w fs).1.rows_written = w.rows_written := by
  cases hs : w.start_date with
  | none => simp [check_rollover, hs]
  | some sd =>
      by_cases hne : sd = env.today
      · simp [check_rollover, hs, hne]
      · have h1 := rename_preserves env w fs
        have h2 := open_file_preserves env (rename_with_end_date env w fs).1
          (rename_with_end_date env w fs).2 env.today
        simp only [check_rollover, hs]
        rw [if_pos hne]
        exact ⟨h2.1.trans h1.1, h2.2.1.trans h1.2.1, h2.2.2.1.trans h1.2.2.1,
          h2.2.2.2.1.trans h1.2.2.2.1, h2.2.2.2.2.1.trans h1.2.2.2.2.1⟩

/-- A flush of a non-empty buffer always empties the buffer, counts
exactly one flush, stamps the flush time, and leaves the thresholds
untouched, whatever the rollover, open-file and write-outcome branches
do. -/
theorem do_flush_spec (env : WEnv) (w : CSVWriter) (fs : FS)
    (h : w.buffer ≠ []) :
    (do_flush env w fs).1.buffer = [] ∧
    (do_flush env w fs).1.flushCount = w.flushCount + 1 ∧
    (do_flush env w fs).1.flush_rows = w.flush_rows ∧
    (do_flush env w fs).1.flush_interval = w.flush_interval ∧
    (do_flush env w fs).1.last_flush_time = some env.now := by
  have hne : ¬ w.buffer.isEmpty = true := by
    simpa [List.isEmpty_iff] using h
  have hcr := check_rollover_preserves env w fs
  have hop := open_file_preserves env (check_rollover env w fs).1
    (check_rollover env w fs).2 env.today
  unfold do_flush
  rw [if_neg hne]
  by_cases hopen : (check_rollover env w fs).1.fileOpen
  · simp only [hopen, if_true]
    by_cases hwk : env.writeOk
    · simp only [hwk, if_true]
      cases hcur : (check_rollover env w fs).1.current_file with
      | none => simp [hcur, hcr.2.1, hcr.2.2.1, hcr.2.2.2.1]
      | some cur => simp [hcur, hcr.2.1, hcr.2.2.1, hcr.2.2.2.1]
    · simp only [hwk, if_false]
      simp [hcr.2.1, hcr.2.2.1, hcr.2.2.2.1]
  · simp only [hopen, if_false]
    by_cases hwk : env.writeOk
    · simp only [hwk, if_true]
      cases hcur : (open_file env (check_rollover env w fs).1
          (check_rollover env w fs).2 env.today).1.current_file with
      | none =>
          simp [hcur, hop.2.1, hop.2.2.1, hop.2.2.2.1,
            hcr.2.1, hcr.2.2.1, hcr.2.2.2.1]
      | some cur =>
          simp [hcur, hop.2.1, hop.2.2.1, hop.2.2.2.1,
            hcr.2.1, hcr.2.2.1, hcr.2.2.2.1]
    · simp only [hwk, if_false]
      simp [hop.2.1, hop.2.2.1, hop.2.2.2.1,
        hcr.2.1, hcr.2.2.1, hcr.2.2.2.1]

/-- No rollover happens while the recorded start date is today. -/
theorem check_rollover_steady (env : WEnv) (w : CSVWriter) (fs : FS)
    (h : w.start_date = some env.today) :
    check_rollover env w fs = (w, fs) := by
  simp [check_rollover, h]

/-- A flush with an open file and no date change appends the buffer to
the current file on success and writes nothing on failure; the buffer is
cleared either way. -/
theorem do_flush_steady (env : WEnv) (w : CSVWriter) (fs : FS) (cur : FName)
    (hb : w.buffer ≠ [])
    (hsd : w.start_date = some env.today)
    (hopen : w.fileOpen = true)
    (hcur : w.current_file = some cur) :
    do_flush env w fs =
      if env.writeOk then
        ({ w with buffer := [], last_flush_time := some env.now,
                  flushCount := w.flushCount + 1,
                  rows_written := w.rows_written + w.buffer.length },
         fsPut fs cur ((fsGet fs cur).getD [] ++ w.buffer))
      else
        ({ w with buffer := [], last_flush_time := some env.now,
                  flushCount := w.flushCount + 1 }, fs) := by
  have hne : ¬ w.buffer.isEmpty = true := by
    simpa [List.isEmpty_iff] using hb
  unfold do_flush
  rw [if_neg hne, check_rollover_steady env w fs hsd]
  by_cases hwk : env.writeOk <;> simp [hopen, hwk, hcur]

/-- A write that leaves the buffer under the threshold only buffers. -/
theorem write_row_no_flush (env : WEnv) (w : CSVWriter) (fs : FS) (r : Row)
    (h : w.buffer.length + 1 < w.flush_rows) :
    write_row env w fs r = ({ w with buffer := w.buffer ++ [r] }, fs) := by
  unfold write_row
  rw [if_neg (by simp; omega)]

/-- A write that reaches the threshold flushes at once. -/
theorem write_row_flush (env : WEnv) (w : CSVWriter) (fs : FS) (r : Row)
    (h : w.flush_rows ≤ w.buffer.length + 1) :
    write_row env w fs r = do_flush env { w with buffer := w.buffer ++ [r] } fs := by
  unfold write_row
  rw [if_pos (by simp; omega)]

/-- Writing rows that exactly top the buffer up to `flush_rows` flushes
exactly once, on the last write. -/
theorem write_row_seq_one_flush (env : WEnv) :
    ∀ (rows : List Row) (w : CSVWriter) (fs : FS), rows ≠ [] →
      w.buffer.length + rows.length = w.flush_rows →
      (write_row_seq env rows w fs).1.flushCount = w.flushCount + 1 ∧
      (write_row_seq env rows w fs).1.buffer = [] := by
  intro rows
  induction rows with
  | nil => intro w fs h; exact absurd rfl h
  | cons r rest ih =>
      intro w fs _ hlen
      rw [List.length_cons] at hlen
      by_cases hrest : rest = []
      · subst hrest
        simp only [List.length_nil] at hlen
        simp only [write_row_seq, List.foldl_cons, List.foldl_nil]
        rw [write_row_flush env w fs r (by omega)]
        have hs := do_flush_spec env { w with buffer := w.buffer ++ [r] } fs
          (by simp)
        exact ⟨hs.2.1, hs.1⟩
      · have hpos : 0 < rest.length := List.length_pos.mpr hrest
        have hstep := write_row_no_flush env w fs r (by omega)
        have hrec := ih { w with buffer := w.buffer ++ [r] } fs hrest
          (by simp; omega)
        simp only [write_row_seq, List.foldl_cons] at hrec ⊢
        rw [hstep]
        exact hrec

/-- C2 amended: writing exactly flush_rows rows into an empty buffer
forces exactly one flush and leaves the buffer empty; writing 1 row into
an empty buffer and waiting at least flush_interval_seconds triggers
exactly one flush on the next check_time_flush call, provided the writer
has a recorded last-flush time; a writer that never opened a file or
flushed has none, and check_time_flush is then a no-op. -/
theorem flush_trigger_semantics :
    (∀ (env : WEnv) (rows : List Row) (w : CSVWriter) (fs : FS),
      w.buffer = [] → 0 < w.flush_rows → rows.length = w.flush_rows →
      (write_row_seq env rows w fs).1.flushCount = w.flushCount + 1 ∧
      (write_row_seq env rows w fs).1.buffer = []) ∧
    (∀ (env env2 : WEnv) (w : CSVWriter) (fs : FS) (r : Row) (t : Rat),
      w.buffer = [] → 1 < w.flush_rows → w.last_flush_time = some t →
      w.flush_interval ≤ env2.now - t →
      (check_time_flush env2 (write_row env w fs r).1
        (write_row env w fs r).2).1.flushCount = w.flushCount + 1 ∧
      (check_time_flush env2 (write_row env w fs r).1
        (write_row env w fs r).2).1.buffer = []) ∧
    (∀ (env : WEnv) (w : CSVWriter) (fs : FS),
      w.last_flush_time = none → check_time_flush env w fs = (w, fs)) := by
  refine ⟨?_, ?_, ?_⟩
  · intro env rows w fs hb hpos hlen
    apply write_row_seq_one_flush env rows w fs
    · intro hnil
      subst hnil
      simp at hlen
      omega
    · rw [hb]
      simpa using hlen
  · intro env env2 w fs r t hb hfr hlf hel
    have hw : write_row env w fs r = ({ w with buffer := w.buffer ++ [r] }, fs) :=
      write_row_no_flush env w fs r (by rw [hb]; simpa using hfr)
    rw [hw]
    simp only [check_time_flush, hlf]
    rw [if_pos hel]
    rw [if_neg (show ¬ (w.buffer ++ [r]).isEmpty = true by simp)]
    have hs := do_flush_spec env2
      { w with buffer := w.buffer ++ [r], last_flush_time := some t } fs (by simp)
    exact ⟨hs.2.1, hs.1⟩
  · intro env w fs h
    simp [check_time_flush, h]

/-- Witness for C2: a writer with flush_rows 2 flushes exactly once on
two writes, and a fresh writer answers check_time_flush unchanged. -/
theorem flush_trigger_semantics_witness :
    ((write_row_seq ⟨100, 0, true⟩ [["a"], ["b"]]
        (init_writer "NIFTY" "NSEFO" 2 1) []).1.flushCount =
      (init_writer "NIFTY" "NSEFO" 2 1).flushCount + 1 ∧
     (write_row_seq ⟨100, 0, true⟩ [["a"], ["b"]]
        (init_writer "NIFTY" "NSEFO" 2 1) []).1.buffer = []) ∧
    check_time_flush ⟨100, 50, true⟩ (init_writer "NIFTY" "NSEFO" 2 1) [] =
      (init_writer "NIFTY" "NSEFO" 2 1, []) :=
  ⟨flush_trigger_semantics.1 ⟨100, 0, true⟩ [["a"], ["b"]]
      (init_writer "NIFTY" "NSEFO" 2 1) [] rfl (by decide) (by decide),
   flush_trigger_semantics.2.2 ⟨100, 50, true⟩
      (init_writer "NIFTY" "NSEFO" 2 1) [] rfl⟩

/-- C2 counterexample: a freshly constructed writer that buffered one row
and then waited 50 seconds (far beyond the 1-second interval) is NOT
flushed by check_time_flush — last_flush_time is still None, so the call
returns at once, the flush count stays 0 and the row stays buffered. -/
theorem fresh_writer_time_flush_noop :
    (check_time_flush ⟨100, 50, true⟩
      (write_row ⟨100, 0, true⟩ (init_writer "NIFTY" "NSEFO" 500 1) [] ["x"]).1
      (write_row ⟨100, 0, true⟩ (init_writer "NIFTY" "NSEFO" 500 1) [] ["x"]).2).1.flushCount
      = 0 ∧
    (check_time_flush ⟨100, 50, true⟩
      (write_row ⟨100, 0, true⟩ (init_writer "NIFTY" "NSEFO" 500 1) [] ["x"]).1
      (write_row ⟨100, 0, true⟩ (init_writer "NIFTY" "NSEFO" 500 1) [] ["x"]).2).1.buffer
      = [["x"]] := by
  exact ⟨rfl, rfl⟩

/-- C9: when the write call inside a flush fails, the buffer is
discarded (not retried: rows_written and the file stay unchanged), no
error escapes (the operations are total), and the writer stays usable —
the next write_row is buffered and a later flush writes it normally. -/
theorem write_failure_drops_buffer_writer_usable (env1 env2 env3 : WEnv)
    (w : CSVWriter) (fs : FS) (r : Row) (cur : FName) (content : List Row)
    (d : Nat)
    (hb : w.buffer ≠ [])
    (hfail : env1.writeOk = false)
    (hok : env3.writeOk = true)
    (hfr : 1 < w.flush_rows)
    (hsd : w.start_date = some d)
    (ht1 : env1.today = d) (ht3 : env3.today = d)
    (hopen : w.fileOpen = true)
    (hcur : w.current_file = some cur)
    (hcont : fsGet fs cur = some content) :
    (do_flush env1 w fs).1.buffer = [] ∧
    (do_flush env1 w fs).1.rows_written = w.rows_written ∧
    (do_flush env1 w fs).2 = fs ∧
    (write_row env2 (do_flush env1 w fs).1 (do_flush env1 w fs).2 r).1.buffer = [r] ∧
    fsGet (do_flush env3
        (write_row env2 (do_flush env1 w fs).1 (do_flush env1 w fs).2 r).1
        (write_row env2 (do_flush env1 w fs).1 (do_flush env1 w fs).2 r).2).2 cur
      = some (content ++ [r]) ∧
    (do_flush env3
        (write_row env2 (do_flush env1 w fs).1 (do_flush env1 w fs).2 r).1
        (write_row env2 (do_flush env1 w fs).1 (do_flush env1 w fs).2 r).2).1.rows_written
      = w.rows_written + 1 := by
  have h1 : do_flush env1 w fs =
      ({ w with buffer := [], last_flush_time := some env1.now,
                flushCount := w.flushCount + 1 }, fs) := by
    rw [do_flush_steady env1 w fs cur hb (by rw [hsd, ht1]) hopen hcur]
    rw [if_neg (by simp [hfail])]
  rw [h1]
  have h2 : write_row env2
      ({ w with buffer := [], last_flush_time := some env1.now,
                flushCount := w.flushCount + 1 } : CSVWriter) fs r =
      ({ w with buffer := [r], last_flush_time := some env1.now,
                flushCount := w.flushCount + 1 }, fs) := by
    rw [write_row_no_flush _ _ _ _ (by simp; omega)]
    rfl
  rw [h2]
  have h3 : do_flush env3
      ({ w with buffer := [r], last_flush_time := some env1.now,
                flushCount := w.flushCount + 1 } : CSVWriter) fs =
      ({ w with buffer := [], last_flush_time := some env3.now,
                flushCount := w.flushCount + 1 + 1,
                rows_written := w.rows_written + 1 }, 
       fsPut fs cur (content ++ [r])) := by
    rw [do_flush_steady env3 _ fs cur (by simp) (by simp [hsd, ht3]) (by simp [hopen]) (by simp [hcur])]
    rw [if_pos (by simp [hok])]
    simp [hcont]
  rw [h3]
  refine ⟨rfl, rfl, rfl, rfl, ?_, rfl⟩
  exact fsGet_fsPut_same fs cur (content ++ [r])

/-- C1 amended: a flush of buffered rows after the date moved from D to
today closes the D-file and renames it so that its END segment is the
current date at rollover (D+1 for a next-day flush), NOT the last-written
date D; the rename happens only when the target name is absent, a
collision skips the rename and overwrites nothing; then a file with
START = END = today is opened (header first) and receives the buffer. -/
theorem rollover_renames_and_opens_new_file (env : WEnv) (w : CSVWriter)
    (fs : FS) (d : Nat) (content : List Row)
    (hb : w.buffer ≠ [])
    (hok : env.writeOk = true)
    (hsd : w.start_date = some d)
    (hne : env.today ≠ d)
    (hcur : w.current_file = some (get_filename w d d))
    (hcont : fsGet fs (get_filename w d d) = some content)
    (hfresh : fsGet fs (get_filename w env.today env.today) = none) :
    ((do_flush env w fs).1.start_date = some env.today ∧
     (do_flush env w fs).1.current_file =
       some (get_filename w env.today env.today) ∧
     fsGet (do_flush env w fs).2 (get_filename w env.today env.today) =
       some (headerRow :: w.buffer)) ∧
    (fsGet fs (get_filename w d env.today) = none →
      fsGet (do_flush env w fs).2 (get_filename w d env.today) = some content ∧
      fsGet (do_flush env w fs).2 (get_filename w d d) = none) ∧
    (∀ c2, fsGet fs (get_filename w d env.today) = some c2 →
      fsGet (do_flush env w fs).2 (get_filename w d env.today) = some c2 ∧
      fsGet (do_flush env w fs).2 (get_filename w d d) = some content) := by
  have hbe : ¬ w.buffer.isEmpty = true := by
    simpa [List.isEmpty_iff] using hb
  have hNT : get_filename w env.today env.today ≠ get_filename w d env.today := by
    simp only [get_filename, ne_eq, FName.mk.injEq]
    omega
  have hNO : get_filename w env.today env.today ≠ get_filename w d d := by
    simp only [get_filename, ne_eq, FName.mk.injEq]
    omega
  have hTO : get_filename w d env.today ≠ get_filename w d d := by
    simp only [get_filename, ne_eq, FName.mk.injEq]
    omega
  rcases htarget : fsGet fs (get_filename w d env.today) with _ | c2
  ·  -- no collision: rename happens
    have hr : rename_with_end_date env w fs =
        ({ w with fileOpen := false,
                  current_file := some (get_filename w d env.today) },
         fsPut (fsErase fs (get_filename w d d))
           (get_filename w d env.today) content) := by
      simp only [rename_with_end_date, hcur, hsd]
      rw [if_pos hne]
      simp [hcont, htarget, close_file, hsd]
    have hget : fsGet (fsPut (fsErase fs (get_filename w d d))
        (get_filename w d env.today) content)
        (get_filename w env.today env.today) = none := by
      rw [fsGet_fsPut_ne _ _ _ _ hNT, fsGet_fsErase_ne _ _ _ hNO]
      exact hfresh
    have hcrol : check_rollover env w fs =
        ({ w with fileOpen := true, start_date := some env.today,
                  current_file := some (get_filename w env.today env.today),
                  last_flush_time := some env.now },
         fsPut (fsPut (fsErase fs (get_filename w d d))
             (get_filename w d env.today) content)
           (get_filename w env.today env.today) [headerRow]) := by
      simp only [check_rollover, hsd]
      rw [if_pos (Ne.symm hne), hr]
      simp only [open_file, close_file]
      rw [show (get_filename
          ({ w with fileOpen := false,
                    current_file := some (get_filename w d env.today) } : CSVWriter)
          env.today env.today) = get_filename w env.today env.today from rfl]
      rw [hget]
      simp
    have hmain : do_flush env w fs =
        ({ w with buffer := [], fileOpen := true,
                  start_date := some env.today,
                  current_file := some (get_filename w env.today env.today),
                  last_flush_time := some env.now,
                  flushCount := w.flushCount + 1,
                  rows_written := w.rows_written + w.buffer.length },
         fsPut (fsPut (fsPut (fsErase fs (get_filename w d d))
               (get_filename w d env.today) content)
             (get_filename w env.today env.today) [headerRow])
           (get_filename w env.today env.today)
           ([headerRow] ++ w.buffer)) := by
      unfold do_flush
      rw [if_neg hbe, hcrol]
      simp only [hok, if_true, if_false]
      rw [fsGet_fsPut_same]
      simp
    rw [hmain]
    refine ⟨⟨rfl, rfl, ?_⟩, fun _ => ⟨?_, ?_⟩, fun c2 hc2 => ?_⟩
    · rw [fsGet_fsPut_same]
      simp
    · rw [fsGet_fsPut_ne _ _ _ _ (Ne.symm hNT),
        fsGet_fsPut_ne _ _ _ _ (Ne.symm hNT), fsGet_fsPut_same]
    · rw [fsGet_fsPut_ne _ _ _ _ (Ne.symm hNO),
        fsGet_fsPut_ne _ _ _ _ (Ne.symm hNO),
        fsGet_fsPut_ne _ _ _ _ (Ne.symm hTO), fsGet_fsErase_same]
    · exact absurd hc2 (by simp)
  ·  -- collision: rename skipped, old file kept, never overwritten
    have hr : rename_with_end_date env w fs = (close_file w, fs) := by
      simp only [rename_with_end_date, hcur, hsd]
      rw [if_pos hne]
      simp [hcont, htarget]
    have hcrol : check_rollover env w fs =
        ({ w with fileOpen := true, start_date := some env.today,
                  current_file := some (get_filename w env.today env.today),
                  last_flush_time := some env.now },
         fsPut fs (get_filename w env.today env.today) [headerRow]) := by
      simp only [check_rollover, hsd]
      rw [if_pos (Ne.symm hne), hr]
      simp only [open_file, close_file, get_filename]
      rw [show fsGet fs
          ({ underlying := w.underlying, venue := w.venue,
             start_d := env.today, end_d := env.today } : FName) = none from hfresh]
      simp
    have hmain : do_flush env w fs =
        ({ w with buffer := [], fileOpen := true,
                  start_date := some env.today,
                  current_file := some (get_filename w env.today env.today),
                  last_flush_time := some env.now,
                  flushCount := w.flushCount + 1,
                  rows_written := w.rows_written + w.buffer.length },
         fsPut (fsPut fs (get_filename w env.today env.today) [headerRow])
           (get_filename w env.today env.today)
           ([headerRow] ++ w.buffer)) := by
      unfold do_flush
      rw [if_neg hbe, hcrol]
      simp only [hok, if_true, if_false]
      rw [fsGet_fsPut_same]
      simp
    rw [hmain]
    refine ⟨⟨rfl, rfl, ?_⟩, fun habs => absurd habs (by simp),
      fun c2x hc2 => ⟨?_, ?_⟩⟩
    · rw [fsGet_fsPut_same]
      simp
    · rw [fsGet_fsPut_ne _ _ _ _ (Ne.symm hNT),
        fsGet_fsPut_ne _ _ _ _ (Ne.symm hNT)]
      rw [htarget]
      exact hc2
    · rw [fsGet_fsPut_ne _ _ _ _ (Ne.symm hNO),
        fsGet_fsPut_ne _ _ _ _ (Ne.symm hNO)]
      exact hcont

/-- A writer opened on day 100 holding one buffered row. -/
def c1_writer : CSVWriter :=
  { underlying := "NIFTY", venue := "NSEFO", flush_rows := 500,
    flush_interval := 1, buffer := [["r"]],
    current_file := some { underlying := "NIFTY", venue := "NSEFO",
                           start_d := 100, end_d := 100 },
    fileOpen := true, start_date := some 100,
    last_flush_time := some 0, rows_written := 0, flushCount := 0 }

/-- The output directory holding the day-100 file with its header. -/
def c1_fs : FS :=
  [({ underlying := "NIFTY", venue := "NSEFO", start_d := 100, end_d := 100 },
    [headerRow])]

/-- A flush environment on day 101 with a healthy disk. -/
def c1_env : WEnv := { today := 101, now := 10, writeOk := true }

/-- C1 counterexample: flushing the day-100 writer on day 101 leaves a
file named with START=100, END=101 — the END segment equals the rollover
day 101, not the last-written day 100 as the claim states; no file with
END=100 survives. -/
theorem rollover_end_is_rollover_date_counterexample :
    fsGet (do_flush c1_env c1_writer c1_fs).2
      { underlying := "NIFTY", venue := "NSEFO", start_d := 100, end_d := 101 }
      = some [headerRow] ∧
    fsGet (do_flush c1_env c1_writer c1_fs).2
      { underlying := "NIFTY", venue := "NSEFO", start_d := 100, end_d := 100 }
      = none := by
  exact ⟨rfl, rfl⟩

/-- Witness for C1 amended, rolling a concrete writer from day 100 to
day 101. -/
theorem rollover_renames_and_opens_new_file_witness :
    ((do_flush c1_env c1_writer c1_fs).1.start_date = some 101 ∧
     (do_flush c1_env c1_writer c1_fs).1.current_file =
       some (get_filename c1_writer 101 101) ∧
     fsGet (do_flush c1_env c1_writer c1_fs).2 (get_filename c1_writer 101 101) =
       some (headerRow :: c1_writer.buffer)) ∧
    (fsGet c1_fs (get_filename c1_writer 100 101) = none →
      fsGet (do_flush c1_env c1_writer c1_fs).2 (get_filename c1_writer 100 101) =
        some [headerRow] ∧
      fsGet (do_flush c1_env c1_writer c1_fs).2 (get_filename c1_writer 100 100) =
        none) := by
  have h := rollover_renames_and_opens_new_file c1_env c1_writer c1_fs 100
    [headerRow] (by simp [c1_writer]) rfl rfl (by decide) rfl rfl rfl
  exact ⟨h.1, h.2.1⟩

/-- A writer for the C9 witness: one buffered row, file open on day 100. -/
def c9_writer : CSVWriter :=
  { underlying := "NIFTY", venue := "NSEFO", flush_rows := 500,
    flush_interval := 1, buffer := [["a"]],
    current_file := some { underlying := "NIFTY", venue := "NSEFO",
                           start_d := 100, end_d := 100 },
    fileOpen := true, start_date := some 100,
    last_flush_time := some 0, rows_written := 7, flushCount := 2 }

/-- The directory for the C9 witness. -/
def c9_fs : FS :=
  [({ underlying := "NIFTY", venue := "NSEFO", start_d := 100, end_d := 100 },
    [headerRow])]

/-- Witness for C9 at a concrete writer, file and failing/succeeding
environments. -/
theorem write_failure_drops_buffer_writer_usable_witness :
    (do_flush ⟨100, 5, false⟩ c9_writer c9_fs).1.buffer = [] ∧
    (do_flush ⟨100, 5, false⟩ c9_writer c9_fs).1.rows_written =
      c9_writer.rows_written ∧
    fsGet (do_flush ⟨100, 7, true⟩
        (write_row ⟨100, 6, true⟩ (do_flush ⟨100, 5, false⟩ c9_writer c9_fs).1
          (do_flush ⟨100, 5, false⟩ c9_writer c9_fs).2 ["b"]).1
        (write_row ⟨100, 6, true⟩ (do_flush ⟨100, 5, false⟩ c9_writer c9_fs).1
          (do_flush ⟨100, 5, false⟩ c9_writer c9_fs).2 ["b"]).2).2
      { underlying := "NIFTY", venue := "NSEFO", start_d := 100, end_d := 100 }
      = some [headerRow, ["b"]] := by
  have h := write_failure_drops_buffer_writer_usable ⟨100, 5, false⟩
    ⟨100, 6, true⟩ ⟨100, 7, true⟩ c9_writer c9_fs ["b"]
    { underlying := "NIFTY", venue := "NSEFO", start_d := 100, end_d := 100 }
    [headerRow] 100 (by simp [c9_writer]) rfl rfl (by decide) rfl rfl rfl rfl
    rfl rfl
  exact ⟨h.1, h.2.1, h.2.2.2.2.1⟩


end Shunya
